import Mathlib

/-!
# Verification of the EarthianBioSense signal-processing pipeline

Shallow embedding of the HRV feature extractor (`src/processing/hrv.py`),
the movement-preserving classifier (`src/processing/movement.py`) and the
phase-trajectory engine (`src/processing/phase.py`), with theorems settling
the frozen claims about the pipeline.

Python floats are modelled as exact rationals (`ℚ`) wherever the code is
pure arithmetic, and as reals (`ℝ`) where the code applies `math.exp` /
`math.sqrt`.  Python functions that can raise are modelled as `Except`.
-/

namespace EBS

/-! ## hrv.py — `compute_autocorrelation` (lines 41-60)

`compute_autocorrelation(rr_intervals, lag)`: returns 0.0 when
`n < lag + 2` or when the variance is zero; otherwise divides the
autocovariance at `lag` by the variance.  The variance is divided by `n`
(line 50) while the autocovariance is divided by `n - lag` (line 58). -/

def computeAutocorrelation (xs : List ℚ) (lag : ℕ) : ℚ :=
  let n := xs.length
  if n < lag + 2 then 0
  else
    let mean := xs.sum / (n : ℚ)
    let variance := (xs.map (fun x => (x - mean) ^ 2)).sum / (n : ℚ)
    if variance = 0 then 0
    else
      let autocovariance :=
        ((List.range (n - lag)).map
          (fun i => (xs.getD i 0 - mean) * (xs.getD (i + lag) 0 - mean))).sum
          / ((n : ℚ) - (lag : ℚ))
      autocovariance / variance

/-- The autocorrelation formula as the claim (and spec §4.1) states it:
the autocovariance and the variance are divided by the identical
denominator `n`, not by `n` and `n - lag`. -/
def claimAutocorrelation (xs : List ℚ) (lag : ℕ) : ℚ :=
  let n := xs.length
  if n < lag + 2 then 0
  else
    let mean := xs.sum / (n : ℚ)
    let variance := (xs.map (fun x => (x - mean) ^ 2)).sum / (n : ℚ)
    if variance = 0 then 0
    else
      let autocovariance :=
        ((List.range (n - lag)).map
          (fun i => (xs.getD i 0 - mean) * (xs.getD (i + lag) 0 - mean))).sum
          / (n : ℚ)
      autocovariance / variance

/-- The RR series of the repository's own regression test
`test_no_inflation_at_small_buffer` (tests/test_hrv.py):
`[1000 + int(80 * sin(2*pi*i/5)) for i in range(10)]`. -/
def regressionTestRR : List ℚ :=
  [1000, 1076, 1047, 953, 924, 1000, 1076, 1047, 953, 924]

/-! ## hrv.py — `compute_mode` (lines 211-248) -/

/-- `compute_mode` score: `coherence*0.4 + (1.0 if breath_steady else 0.3)*0.3
+ amp_norm*0.2 + (1 - volatility*5)*0.1`, clamped to [0,1].  The volatility
term is NOT clamped before being weighted (hrv.py line 230). -/
def computeModeScore (amplitude coherence : ℚ) (breathSteady : Bool) (volatility : ℚ) : ℚ :=
  let ampNorm := min 1 (amplitude / 200)
  let calmScore := coherence * 0.4 + (if breathSteady then (1 : ℚ) else 0.3) * 0.3 +
    ampNorm * 0.2 + (1 - volatility * 5) * 0.1
  max 0 (min 1 calmScore)

/-- `compute_mode` label bands (hrv.py lines 235-246). -/
def computeModeLabel (calmScore : ℚ) : String :=
  if calmScore < 0.2 then "heightened vigilance"
  else if calmScore < 0.35 then "subtle vigilance"
  else if calmScore < 0.5 then "transitional"
  else if calmScore < 0.65 then "settling"
  else if calmScore < 0.8 then "emerging coherence"
  else "coherent presence"

/-- `compute_mode(amplitude, coherence, breath_steady, volatility)` returns
`(label, calm_score)`. -/
def computeMode (amplitude coherence : ℚ) (breathSteady : Bool) (volatility : ℚ) :
    String × ℚ :=
  (computeModeLabel (computeModeScore amplitude coherence breathSteady volatility),
   computeModeScore amplitude coherence breathSteady volatility)

/-- The claim's mode-score formula: identical to `computeModeScore` except
that the volatility term `V' = clamp(1 - 5*volatility, 0, 1)` is clamped to
[0,1] before being weighted. -/
def claimModeScore (amplitude entrainment : ℚ) (breathSteady : Bool) (volatility : ℚ) : ℚ :=
  max 0 (min 1 (0.4 * entrainment + 0.3 * (if breathSteady then (1 : ℚ) else 0.3) +
    0.2 * min 1 (amplitude / 200) + 0.1 * max 0 (min 1 (1 - 5 * volatility))))

/-- The six mode names the claim (and spec §3) lists. -/
def claimModeNames : List String :=
  ["heightened alertness", "subtle alertness", "transitional",
   "settling", "emerging coherence", "coherent presence"]

/-! ## movement.py — modes, hysteresis configuration (lines 45-335)

The six mode names of `MODE_CENTROIDS` / `DEFAULT_HYSTERESIS`. -/

inductive Mode
  | heightenedAlertness
  | subtleAlertness
  | transitional
  | settling
  | emergingCoherence
  | coherentPresence
deriving DecidableEq, Fintype, Repr

instance : Nonempty Mode := ⟨.transitional⟩

/-- `HysteresisConfig` dataclass (movement.py lines 71-100), with the
constructor defaults `entry=0.3, exit=0.4, prov=3, est=10, penalty=0.7,
bonus=1.1`. -/
structure HysteresisConfig where
  mode_name : String
  entry_threshold : ℚ
  exit_threshold : ℚ
  provisional_samples : ℕ
  established_samples : ℕ
  entry_penalty : ℚ
  settled_bonus : ℚ
deriving DecidableEq, Repr

/-- The `HysteresisConfig(name)` default constructor used for modes missing
from the table (movement.py lines 483-490). -/
def HysteresisConfig.default (name : String) : HysteresisConfig :=
  ⟨name, 0.3, 0.4, 3, 10, 0.7, 1.1⟩

/-- `DEFAULT_HYSTERESIS` (movement.py lines 270-325). -/
def DEFAULT_HYSTERESIS : Mode → HysteresisConfig
  | .heightenedAlertness => ⟨"heightened alertness", 0.18, 0.24, 3, 8, 0.85, 1.05⟩
  | .subtleAlertness => ⟨"subtle alertness", 0.18, 0.24, 3, 8, 0.85, 1.05⟩
  | .transitional => ⟨"transitional", 0.17, 0.22, 2, 5, 0.9, 1.0⟩
  | .settling => ⟨"settling", 0.19, 0.25, 3, 10, 0.8, 1.1⟩
  | .emergingCoherence => ⟨"emerging coherence", 0.20, 0.26, 3, 10, 0.8, 1.1⟩
  | .coherentPresence => ⟨"coherent presence", 0.22, 0.28, 5, 15, 0.75, 1.15⟩

/-! ## movement.py — `detect_mode_with_hysteresis` (lines 438-557)

The function reads the soft inference (`primary_mode` and its membership
weight), the mutable `ModeHistory` (current/previous mode, state status,
mode-entry time, provisional-since time) and the timestamp; it returns
`(final_mode, final_confidence, metadata)` and may call
`mode_history.set_state_status`.  The mutation is modelled by returning the
new status and provisional-since values. -/

inductive StateStatus
  | unknown
  | provisional
  | established
deriving DecidableEq, Repr

inductive TransitionType
  | entry
  | exit
  | sustained
deriving DecidableEq, Repr

/-- The slice of `ModeHistory` state read by `detect_mode_with_hysteresis`:
`_current_mode`, `_previous_mode`, `_mode_entry_time`, `_state_status`,
`_provisional_since` (movement.py lines 118-125). -/
structure ModeHistoryState where
  currentMode : Option Mode
  previousMode : Option Mode
  modeEntryTime : ℚ
  stateStatus : StateStatus
  provisionalSince : ℚ
deriving DecidableEq, Repr

/-- The slice of `SoftModeInference` read by `detect_mode_with_hysteresis`:
the membership mapping and the primary mode (movement.py lines 463-464). -/
structure SoftInference where
  membership : Mode → ℚ
  primaryMode : Mode

/-- Result of `detect_mode_with_hysteresis`: the returned triple plus the
`set_state_status` effect on the history. -/
structure DetectResult where
  finalMode : Mode
  finalConfidence : ℚ
  metaStatus : StateStatus
  transitionType : Option TransitionType
  dwellTime : ℚ
  newStatus : StateStatus
  newProvisionalSince : ℚ
deriving DecidableEq, Repr

/-- `ModeHistory.get_dwell_time` (movement.py lines 154-158): 0 when no
current mode, else `timestamp - _mode_entry_time`. -/
def getDwellTime (h : ModeHistoryState) (ts : ℚ) : ℚ :=
  match h.currentMode with
  | none => 0
  | some _ => ts - h.modeEntryTime

/-- `ModeHistory.set_state_status(status, ts)` effect on
`_provisional_since` (movement.py lines 174-182): it is set to `ts` when
entering `provisional` from a different status. -/
def provisionalSinceAfterSet (h : ModeHistoryState) (status : StateStatus) (ts : ℚ) : ℚ :=
  if status = .provisional ∧ h.stateStatus ≠ .provisional then ts else h.provisionalSince

/-- `detect_mode_with_hysteresis(soft_inference, mode_history, timestamp)`
(movement.py lines 438-557), translated branch by branch. -/
def detectModeWithHysteresis (inf : SoftInference) (h : ModeHistoryState) (ts : ℚ) :
    DetectResult :=
  let proposed := inf.primaryMode
  let raw := inf.membership proposed
  let dwell := getDwellTime h ts
  let proposedConfig := DEFAULT_HYSTERESIS proposed
  match h.currentMode with
  | none =>
    -- First entry - use entry threshold
    if proposedConfig.entry_threshold ≤ raw then
      { finalMode := proposed
        finalConfidence := raw * proposedConfig.entry_penalty
        metaStatus := .provisional
        transitionType := some .entry
        dwellTime := dwell
        newStatus := .provisional
        newProvisionalSince := provisionalSinceAfterSet h .provisional ts }
    else
      { finalMode := .transitional
        finalConfidence := 0.3
        metaStatus := .unknown
        transitionType := none
        dwellTime := dwell
        newStatus := h.stateStatus
        newProvisionalSince := h.provisionalSince }
  | some currentMode =>
    let currentConfig := DEFAULT_HYSTERESIS currentMode
    if proposed = currentMode then
      -- Staying in same mode - check for establishment
      if h.stateStatus = .provisional ∧
          (proposedConfig.provisional_samples : ℚ) ≤ ts - h.provisionalSince then
        -- promote to established; the settled bonus reads the *old* status,
        -- so it cannot apply on the promotion step itself
        { finalMode := currentMode
          finalConfidence := raw
          metaStatus := .established
          transitionType := some .sustained
          dwellTime := dwell
          newStatus := .established
          newProvisionalSince := h.provisionalSince }
      else if h.stateStatus = .established ∧
          (currentConfig.established_samples : ℚ) ≤ dwell then
        { finalMode := currentMode
          finalConfidence := min 1 (raw * currentConfig.settled_bonus)
          metaStatus := h.stateStatus
          transitionType := none
          dwellTime := dwell
          newStatus := h.stateStatus
          newProvisionalSince := h.provisionalSince }
      else
        { finalMode := currentMode
          finalConfidence := raw
          metaStatus := h.stateStatus
          transitionType := none
          dwellTime := dwell
          newStatus := h.stateStatus
          newProvisionalSince := h.provisionalSince }
    else
      -- Potential transition to different mode
      if h.stateStatus = .established then
        if raw < currentConfig.exit_threshold then
          -- Can't exit yet - stay in current mode
          { finalMode := currentMode
            finalConfidence := currentConfig.exit_threshold * 0.9
            metaStatus := h.stateStatus
            transitionType := none
            dwellTime := dwell
            newStatus := h.stateStatus
            newProvisionalSince := h.provisionalSince }
        else
          -- Crossing exit threshold - go provisional for new mode
          { finalMode := proposed
            finalConfidence := raw * proposedConfig.entry_penalty
            metaStatus := .provisional
            transitionType := some .exit
            dwellTime := dwell
            newStatus := .provisional
            newProvisionalSince := provisionalSinceAfterSet h .provisional ts }
      else
        -- Provisional or unknown - easier to transition
        if proposedConfig.entry_threshold ≤ raw then
          { finalMode := proposed
            finalConfidence := raw * proposedConfig.entry_penalty
            metaStatus := .provisional
            transitionType := some .entry
            dwellTime := dwell
            newStatus := .provisional
            newProvisionalSince := provisionalSinceAfterSet h .provisional ts }
        else
          -- Revert to current (non-None here)
          { finalMode := currentMode
            finalConfidence := raw
            metaStatus := h.stateStatus
            transitionType := none
            dwellTime := dwell
            newStatus := h.stateStatus
            newProvisionalSince := h.provisionalSince }

/-! ## movement.py — `compute_soft_mode_membership` (lines 342-431)

Feature space `(entrainment, breath_steady_score, amp_norm,
inverse_volatility)`; softmax over negative weighted squared distances to
the six centroids.  `math.exp` forces the real-number model. -/

/-- A point in the four-dimensional classification feature space. -/
structure Features where
  entrainment : ℝ
  breath_steady_score : ℝ
  amp_norm : ℝ
  inverse_volatility : ℝ

/-- `MODE_CENTROIDS` (movement.py lines 212-255). -/
def MODE_CENTROIDS : Mode → Features
  | .heightenedAlertness => ⟨0.1, 0.3, 0.2, 0.2⟩
  | .subtleAlertness => ⟨0.25, 0.3, 0.35, 0.4⟩
  | .transitional => ⟨0.4, 0.5, 0.45, 0.6⟩
  | .settling => ⟨0.55, 0.8, 0.55, 0.75⟩
  | .emergingCoherence => ⟨0.65, 1.0, 0.65, 0.85⟩
  | .coherentPresence => ⟨0.8, 1.0, 0.75, 0.95⟩

/-- Weighted squared distance to a centroid with `FEATURE_WEIGHTS`
`(0.4, 0.3, 0.2, 0.1)` (movement.py lines 258-263 and 379-386). -/
def weightedDistSq (x c : Features) : ℝ :=
  0.4 * (x.entrainment - c.entrainment) ^ 2 +
  0.3 * (x.breath_steady_score - c.breath_steady_score) ^ 2 +
  0.2 * (x.amp_norm - c.amp_norm) ^ 2 +
  0.1 * (x.inverse_volatility - c.inverse_volatility) ^ 2

/-- The position vector built from the inputs (movement.py lines 368-377):
`breath_steady_score = 1.0 if breath_steady else 0.3`,
`inverse_volatility = max(0, min(1, 1 - volatility*5))`. -/
def softPosition (entrainment : ℝ) (breathSteady : Bool) (ampNorm volatility : ℝ) :
    Features :=
  ⟨entrainment, if breathSteady then 1 else 0.3, ampNorm,
   max 0 (min 1 (1 - volatility * 5))⟩

/-- `max_neg_dist = max(-d for d in distances.values())` (movement.py
line 390), the numerical-stability shift. -/
noncomputable def maxNegDist (x : Features) : ℝ :=
  Finset.univ.sup' Finset.univ_nonempty (fun m => -weightedDistSq x (MODE_CENTROIDS m))

/-- Unnormalized softmax weight `exp((-dist - max_neg_dist) / T)`
(movement.py lines 392-394). -/
noncomputable def expWeight (x : Features) (T : ℝ) (m : Mode) : ℝ :=
  Real.exp ((-weightedDistSq x (MODE_CENTROIDS m) - maxNegDist x) / T)

/-- The membership mapping of `compute_soft_mode_membership` (movement.py
lines 396-397): each exponential weight divided by their total. -/
noncomputable def softMembership (entrainment : ℝ) (breathSteady : Bool)
    (ampNorm volatility T : ℝ) (m : Mode) : ℝ :=
  expWeight (softPosition entrainment breathSteady ampNorm volatility) T m /
    ∑ k : Mode, expWeight (softPosition entrainment breathSteady ampNorm volatility) T k

/-! ## movement.py — movement annotation (lines 328-331, 564-641) -/

def VELOCITY_THRESHOLD : ℚ := 0.03
def ACCELERATION_THRESHOLD : ℚ := 0.01
def SETTLED_THRESHOLD : ℚ := 5.0
def RECENT_TRANSITION_WINDOW : ℚ := 3.0

/-- `generate_movement_annotation(velocity_magnitude, acceleration_magnitude,
previous_mode, dwell_time, ...)` (movement.py lines 564-625).  The
`" ".join(parts)` of the base word and the optional `"from <previous>"`
part is the concatenation with a separating space; `parts` is never empty,
so the `"unknown"` fallback of line 625 is unreachable. -/
def generateMovementAnn (velocityMagnitude accelerationMagnitude : Option ℚ)
    (previousMode : Option String) (dwellTime : ℚ)
    (velocityThreshold accelerationThreshold settledThreshold : ℚ) : String :=
  match velocityMagnitude with
  | none => "insufficient data"
  | some v =>
    let base :=
      if v < velocityThreshold ∧ settledThreshold ≤ dwellTime then "settled"
      else if v < velocityThreshold then "still"
      else
        match accelerationMagnitude with
        | some a =>
          if accelerationThreshold < a then "accelerating"
          else if a < -accelerationThreshold then "decelerating"
          else "moving"
        | none => "moving"
    match previousMode with
    | some pm => if dwellTime < RECENT_TRANSITION_WINDOW then base ++ " from " ++ pm else base
    | none => base

/-- `compose_movement_aware_label(mode, movement_annotation)`
(movement.py lines 628-641). -/
def composeMovementAwareLabel (mode ann : String) : String :=
  if ann = "insufficient data" ∨ ann = "unknown" ∨ ann = "settled" then mode
  else mode ++ " (" ++ ann ++ ")"

/-- The suffix behaviour as the claim states it: `" from <previous>"` is
appended iff a previous mode is known and the dwell time is < 3 s. -/
def claimSuffix (previousMode : Option String) (dwellTime : ℚ) : String :=
  match previousMode with
  | some pm => if dwellTime < 3 then " from " ++ pm else ""
  | none => ""

/-! ## phase.py — `compute_trajectory_coherence` (lines 416-495)

Positions are points of the 3D manifold; `_vector_magnitude` applies
`math.sqrt`, so this part is modelled over `ℝ`. -/

/-- A 3D vector / manifold position. -/
abbrev V3 : Type := ℝ × ℝ × ℝ

/-- `PhaseTrajectory._vector_magnitude` (phase.py lines 396-399). -/
noncomputable def vectorMagnitude (v : V3) : ℝ :=
  Real.sqrt (v.1 ^ 2 + v.2.1 ^ 2 + v.2.2 ^ 2)

/-- Componentwise difference `b - a`. -/
def vSub (b a : V3) : V3 := (b.1 - a.1, b.2.1 - a.2.1, b.2.2 - a.2.2)

/-- Dot product `sum(v1[j]*v2[j] for j in range(3))` (phase.py line 481). -/
def vDot (v w : V3) : ℝ := v.1 * w.1 + v.2.1 * w.2.1 + v.2.2 * w.2.2

/-- The velocity sequence (first differences) of phase.py lines 441-444:
`v_i = positions[i] - positions[i-1]` for `i = 1..len-1`, in order. -/
def stepVelocities : List V3 → List V3
  | [] => []
  | [_] => []
  | a :: b :: rest => vSub b a :: stepVelocities (b :: rest)

/-- The directional-coherence accumulation of phase.py lines 471-489:
average of `(cos+1)/2` over index pairs `(i, i+lag)` whose two velocity
magnitudes both exceed `1e-6`; `0.5` when no pair qualifies. -/
noncomputable def directionConsistency (velocities : List V3) (lag : ℕ) : ℝ :=
  let z : V3 := (0, 0, 0)
  let eligible := (List.range (velocities.length - lag)).filter
    (fun i => decide (1e-6 < vectorMagnitude (velocities.getD i z)) &&
      decide (1e-6 < vectorMagnitude (velocities.getD (i + lag) z)))
  if 0 < eligible.length then
    (eligible.map (fun i =>
      (vDot (velocities.getD i z) (velocities.getD (i + lag) z) /
        (vectorMagnitude (velocities.getD i z) *
          vectorMagnitude (velocities.getD (i + lag) z)) + 1) / 2)).sum /
      (eligible.length : ℝ)
  else 0.5

/-- `compute_trajectory_coherence(lag)` (phase.py lines 416-495) as a
function of the buffered positions.  The autocovariance at line 464-467 is
divided by `n` (the same denominator as the variance). -/
noncomputable def computeTrajectoryCoherence (positions : List V3) (lag : ℕ) : ℝ :=
  if positions.length < lag + 3 then 0
  else
    let velocities := stepVelocities positions
    if velocities.length < lag + 2 then 0
    else
      let vMags := velocities.map vectorMagnitude
      let n := vMags.length
      let meanV := vMags.sum / (n : ℝ)
      let variance := (vMags.map (fun x => (x - meanV) ^ 2)).sum / (n : ℝ)
      if variance < 1e-10 then 0.8
      else
        let autocovariance := ((List.range (n - lag)).map
          (fun i => (vMags.getD i 0 - meanV) * (vMags.getD (i + lag) 0 - meanV))).sum /
          (n : ℝ)
        let autocorr := autocovariance / variance
        let directionCoherence := directionConsistency velocities lag
        max 0 (min 1 (0.5 * max 0 autocorr + 0.5 * directionCoherence))

/-- The variance of the per-step velocity magnitudes, denominator `n`, as
the claim describes it. -/
noncomputable def claimVelMagVariance (positions : List V3) : ℝ :=
  let vMags := (stepVelocities positions).map vectorMagnitude
  let meanV := vMags.sum / (vMags.length : ℝ)
  (vMags.map (fun x => (x - meanV) ^ 2)).sum / (vMags.length : ℝ)

/-- The lag-`lag` magnitude autocorrelation as the claim describes it:
autocovariance and variance divided by the identical denominator `n`. -/
noncomputable def claimMagAutocorr (positions : List V3) (lag : ℕ) : ℝ :=
  let vMags := (stepVelocities positions).map vectorMagnitude
  let n := vMags.length
  let meanV := vMags.sum / (n : ℝ)
  ((List.range (n - lag)).map
    (fun i => (vMags.getD i 0 - meanV) * (vMags.getD (i + lag) 0 - meanV))).sum / (n : ℝ) /
    ((vMags.map (fun x => (x - meanV) ^ 2)).sum / (n : ℝ))

/-! ## hrv.py `HRVMetrics` (lines 7-31) and phase.py `append` (lines 132-176)

The `HRVMetrics` dataclass shipped in hrv.py declares the fields below —
note `coherence` / `coherence_label`, and *no* `entrainment` field.
`PhaseTrajectory._metrics_to_position` (phase.py line 164) begins with
`ent = m.entrainment`; on a dataclass instance an attribute lookup outside
the declared fields raises `AttributeError`. -/

structure HRVMetrics where
  mean_rr : ℚ
  min_rr : ℤ
  max_rr : ℤ
  amplitude : ℤ
  coherence : ℚ
  coherence_label : String
  breath_rate : Option ℚ
  breath_steady : Bool
  rr_volatility : ℚ
  mode_label : String
  mode_score : ℚ
deriving DecidableEq, Repr

/-- A raised Python exception. -/
inductive PyError
  | attributeError (attr : String)
deriving DecidableEq, Repr

/-- A Python attribute value on an `HRVMetrics` instance. -/
inductive PyVal
  | num (q : ℚ)
  | int (z : ℤ)
  | optNum (q : Option ℚ)
  | bool (b : Bool)
  | str (s : String)
deriving DecidableEq, Repr

/-- Python attribute lookup on an `HRVMetrics` dataclass instance: the
declared fields resolve to their values, every other name raises
`AttributeError` (dataclasses define no `__getattr__` fallback). -/
def HRVMetrics.getattr (m : HRVMetrics) : String → Except PyError PyVal
  | "mean_rr" => .ok (.num m.mean_rr)
  | "min_rr" => .ok (.int m.min_rr)
  | "max_rr" => .ok (.int m.max_rr)
  | "amplitude" => .ok (.int m.amplitude)
  | "coherence" => .ok (.num m.coherence)
  | "coherence_label" => .ok (.str m.coherence_label)
  | "breath_rate" => .ok (.optNum m.breath_rate)
  | "breath_steady" => .ok (.bool m.breath_steady)
  | "rr_volatility" => .ok (.num m.rr_volatility)
  | "mode_label" => .ok (.str m.mode_label)
  | "mode_score" => .ok (.num m.mode_score)
  | attr => .error (.attributeError attr)

/-- Numeric view of an attribute value (never reached on the failing path). -/
def PyVal.toRat : PyVal → ℚ
  | .num q => q
  | .int z => (z : ℚ)
  | _ => 0

/-- `PhaseState` (phase.py lines 37-41), with the position over `ℚ`
(reaching a position at all is what is at stake here). -/
structure PhaseState where
  timestamp : ℚ
  position : ℚ × ℚ × ℚ
deriving DecidableEq, Repr

/-- `PhaseTrajectory._metrics_to_position` (phase.py lines 161-176).  Its
first statement `ent = m.entrainment` performs the attribute lookup; the
remaining normalizations run only if it succeeds. -/
def metricsToPosition (m : HRVMetrics) : Except PyError (ℚ × ℚ × ℚ) := do
  let entVal ← m.getattr "entrainment"
  let ent := entVal.toRat
  let breath := match m.breath_rate with
    | some br => max 0 (min 1 ((br - 4) / 16))
    | none => 0.5
  let amp := min 1 ((m.amplitude : ℚ) / 200)
  pure (ent, breath, amp)

/-- `PhaseTrajectory.append(metrics, timestamp)` (phase.py lines 132-159)
on a buffer with `maxlen = 30`: computes the position, builds the new
state, and appends it to the ring buffer.  The `_compute_dynamics` call
between these steps is itself reached only when `_metrics_to_position`
succeeds (and would fail on the same `metrics.entrainment` lookup at
phase.py lines 185 and 289). -/
def appendStep (states : List PhaseState) (m : HRVMetrics) (ts : ℚ) :
    Except PyError (PhaseState × List PhaseState) := do
  let position ← metricsToPosition m
  let newState : PhaseState := ⟨ts, position⟩
  let appended := states ++ [newState]
  pure (newState, appended.drop (appended.length - 30))

/-- The `HRVMetrics` value produced by `compute_hrv_metrics([])`
(hrv.py lines 253-259). -/
def emptyMetrics : HRVMetrics :=
  ⟨0, 0, 0, 0, 0, "[no data]", none, false, 0, "unknown", 0⟩

/-! ## Claim theorems -/

/-- Claim C1: `PhaseTrajectory.append` was claimed to run to completion on
every `HRVMetrics` record and never raise.  In fact the very first step,
`_metrics_to_position`, reads `metrics.entrainment`, an attribute the
shipped `HRVMetrics` dataclass does not declare, so `append` raises
`AttributeError` for every metrics record and every buffer state. -/
theorem c1_append_always_raises (states : List PhaseState) (m : HRVMetrics) (ts : ℚ) :
    appendStep states m ts = .error (.attributeError "entrainment") := rfl

/-- Claim C2: `compute_autocorrelation` was claimed to divide autocovariance
and variance by the identical denominator `n`.  On the RR series of the
repository's own regression test (`test_no_inflation_at_small_buffer`) with
lag 8, the code returns `-1444/1597 ≈ -0.904` (autocovariance divided by
`n - lag = 2`), below `-1/2`, violating the test's `|ac| < 0.5` assertion,
while the claimed identical-denominator formula yields
`-1444/7985 ≈ -0.181`, inside `(-1/2, 1/2)`. -/
theorem c2_autocorrelation_mixed_denominator :
    computeAutocorrelation regressionTestRR 8 = -1444 / 1597 ∧
    claimAutocorrelation regressionTestRR 8 = -1444 / 7985 ∧
    computeAutocorrelation regressionTestRR 8 < -1/2 ∧
    -1/2 < claimAutocorrelation regressionTestRR 8 ∧
    claimAutocorrelation regressionTestRR 8 < 1/2 ∧
    computeAutocorrelation regressionTestRR 8 ≠ claimAutocorrelation regressionTestRR 8 := by
  have h1 : computeAutocorrelation regressionTestRR 8 = -1444 / 1597 := by
    norm_num [computeAutocorrelation, regressionTestRR, List.range_succ, List.getD]
  have h2 : claimAutocorrelation regressionTestRR 8 = -1444 / 7985 := by
    norm_num [claimAutocorrelation, regressionTestRR, List.range_succ, List.getD]
  refine ⟨h1, h2, ?_, ?_, ?_, ?_⟩
  · rw [h1]; norm_num
  · rw [h2]; norm_num
  · rw [h2]; norm_num
  · rw [h1, h2]; norm_num

/-- Claim C5 counterexample: the claim states the volatility term
`V' = clamp(1 - 5·volatility, 0, 1)` is clamped before being weighted.  At
`amplitude=200, entrainment=1, breath_steady=True, volatility=1` the code
(no inner clamp) returns score `1/2`, the claimed formula `9/10`. -/
theorem c5_counterexample :
    computeModeScore 200 1 true 1 = 1 / 2 ∧
    claimModeScore 200 1 true 1 = 9 / 10 ∧
    computeModeScore 200 1 true 1 ≠ claimModeScore 200 1 true 1 := by
  have h1 : computeModeScore 200 1 true 1 = 1 / 2 := by
    norm_num [computeModeScore, min_def, max_def]
  have h2 : claimModeScore 200 1 true 1 = 9 / 10 := by
    norm_num [claimModeScore, min_def, max_def]
  exact ⟨h1, h2, by rw [h1, h2]; norm_num⟩

/-- Claim C5 as amended: the mode score equals
`clamp(0.4·E + 0.3·B + 0.2·A + 0.1·V', 0, 1)` with `B = 1.0 if
breath_steady else 0.3`, `A = min(1, amplitude/200)` and the *unclamped*
volatility term `V' = 1 - 5·volatility`; only the total is clamped. -/
theorem c5_mode_score_formula (amplitude entrainment : ℚ) (breathSteady : Bool)
    (volatility : ℚ) (ha : 0 ≤ amplitude) (hv : 0 ≤ volatility) :
    computeModeScore amplitude entrainment breathSteady volatility =
      max 0 (min 1 (0.4 * entrainment + 0.3 * (if breathSteady then (1 : ℚ) else 0.3) +
        0.2 * min 1 (amplitude / 200) + 0.1 * (1 - 5 * volatility))) := by
  unfold computeModeScore
  ring

/-- Witness for `c5_mode_score_formula` at `amplitude=100, entrainment=1/2,
breath_steady=true, volatility=1/10`. -/
theorem c5_mode_score_formula_witness :
    (0 : ℚ) ≤ 100 ∧ (0 : ℚ) ≤ 1/10 ∧
    computeModeScore 100 (1/2) true (1/10) =
      max 0 (min 1 (0.4 * (1/2) + 0.3 * (if true then (1 : ℚ) else 0.3) +
        0.2 * min 1 ((100 : ℚ) / 200) + 0.1 * (1 - 5 * (1/10)))) :=
  ⟨by norm_num, by norm_num,
   c5_mode_score_formula 100 (1/2) true (1/10) (by norm_num) (by norm_num)⟩

/-- Claim C6: the mode label was claimed to be one of the six names
`heightened alertness, subtle alertness, transitional, settling, emerging
coherence, coherent presence`.  At the inputs of the repository's own test
`test_low_calm_alertness` (`amplitude=40, entrainment=0.05,
breath_steady=False, volatility=0.2`), `compute_mode` returns the
pre-rename label `"heightened vigilance"`, which is not in the claimed
set. -/
theorem c6_label_names_bug :
    computeMode 40 (1/20) false (1/5) = ("heightened vigilance", 3/20) ∧
    "heightened vigilance" ∉ claimModeNames ∧
    "subtle vigilance" ∉ claimModeNames := by
  refine ⟨?_, by decide, by decide⟩
  norm_num [computeMode, computeModeLabel, computeModeScore, min_def, max_def]

/-- Numeric bounds of every entry of the `DEFAULT_HYSTERESIS` table. -/
lemma hysteresis_table_bounds (m : Mode) :
    0 ≤ (DEFAULT_HYSTERESIS m).entry_penalty ∧ (DEFAULT_HYSTERESIS m).entry_penalty ≤ 1 ∧
    0 ≤ (DEFAULT_HYSTERESIS m).exit_threshold ∧
    (DEFAULT_HYSTERESIS m).exit_threshold * 0.9 ≤ 0.252 ∧
    0 ≤ (DEFAULT_HYSTERESIS m).settled_bonus := by
  cases m <;> norm_num [DEFAULT_HYSTERESIS]

/-- Claim C3: once the stored status is `established` in mode `M`, a step
whose proposed primary mode differs from `M` and whose raw membership is
below `M`'s exit threshold stays in `M` with confidence
`exit_threshold · 0.9` and no transition; and the emitted mode can differ
from an established `M` only when the raw membership reaches `M`'s exit
threshold. -/
theorem c3_established_exit_discipline (inf : SoftInference) (h : ModeHistoryState)
    (ts : ℚ) (M : Mode) (hest : h.stateStatus = .established)
    (hcur : h.currentMode = some M) :
    (inf.primaryMode ≠ M →
      inf.membership inf.primaryMode < (DEFAULT_HYSTERESIS M).exit_threshold →
      (detectModeWithHysteresis inf h ts).finalMode = M ∧
      (detectModeWithHysteresis inf h ts).finalConfidence =
        (DEFAULT_HYSTERESIS M).exit_threshold * 0.9 ∧
      (detectModeWithHysteresis inf h ts).transitionType = none ∧
      (detectModeWithHysteresis inf h ts).newStatus = .established) ∧
    ((detectModeWithHysteresis inf h ts).finalMode ≠ M →
      (DEFAULT_HYSTERESIS M).exit_threshold ≤ inf.membership inf.primaryMode) := by
  constructor
  · intro hne hlt
    simp [detectModeWithHysteresis, hcur, hne, hest, hlt]
  · intro hfm
    by_cases hp : inf.primaryMode = M
    · exfalso
      apply hfm
      simp only [detectModeWithHysteresis, hcur, hp, if_pos rfl]
      split_ifs <;> rfl
    · by_contra hge
      push_neg at hge
      apply hfm
      simp [detectModeWithHysteresis, hcur, hp, hest, hge]

/-- Witness for `c3_established_exit_discipline`: an established `settling`
history receiving a proposed `emerging coherence` with raw membership 0.2
(below the 0.25 exit threshold) stays in `settling` at confidence 0.225. -/
theorem c3_established_exit_discipline_witness :
    (detectModeWithHysteresis
      ⟨fun m => if m = .emergingCoherence then 0.2 else 0.1, .emergingCoherence⟩
      ⟨some .settling, none, 0, .established, 0⟩ 7).finalMode = .settling ∧
    (detectModeWithHysteresis
      ⟨fun m => if m = .emergingCoherence then 0.2 else 0.1, .emergingCoherence⟩
      ⟨some .settling, none, 0, .established, 0⟩ 7).finalConfidence =
      (DEFAULT_HYSTERESIS .settling).exit_threshold * 0.9 := by
  have h := c3_established_exit_discipline
    ⟨fun m => if m = .emergingCoherence then 0.2 else 0.1, .emergingCoherence⟩
    ⟨some .settling, none, 0, .established, 0⟩ 7 .settling rfl rfl
  have h2 := h.1 (by decide) (by norm_num [DEFAULT_HYSTERESIS])
  exact ⟨h2.1, h2.2.1⟩

/-- A product of two values of [0,1] stays below 1. -/
lemma mul_unit_le_one {a b : ℚ} (ha0 : 0 ≤ a) (ha1 : a ≤ 1) (hb0 : 0 ≤ b) (hb1 : b ≤ 1) :
    a * b ≤ 1 := by nlinarith

/-- Claim C9: with the default hysteresis table, every confidence emitted
by `detect_mode_with_hysteresis` lies in [0,1] whenever the soft membership
weights lie in [0,1]; moreover every entry penalty is ≤ 1 and the
stay-in-established confidence `exit_threshold · 0.9` is ≤ 0.252. -/
theorem c9_confidence_in_unit_interval (inf : SoftInference) (h : ModeHistoryState)
    (ts : ℚ) (hm : ∀ m, 0 ≤ inf.membership m ∧ inf.membership m ≤ 1) :
    (0 ≤ (detectModeWithHysteresis inf h ts).finalConfidence ∧
      (detectModeWithHysteresis inf h ts).finalConfidence ≤ 1) ∧
    (∀ m, (DEFAULT_HYSTERESIS m).entry_penalty ≤ 1) ∧
    (∀ m, (DEFAULT_HYSTERESIS m).exit_threshold * 0.9 ≤ 0.252) := by
  refine ⟨?_, fun m => (hysteresis_table_bounds m).2.1,
    fun m => (hysteresis_table_bounds m).2.2.2.1⟩
  obtain ⟨hr0, hr1⟩ := hm inf.primaryMode
  obtain ⟨hp0, hp1, -, -, -⟩ := hysteresis_table_bounds inf.primaryMode
  rcases hcm : h.currentMode with - | cur
  · simp only [detectModeWithHysteresis, hcm]
    split_ifs
    · exact ⟨mul_nonneg hr0 hp0, mul_unit_le_one hr0 hr1 hp0 hp1⟩
    · norm_num
  · obtain ⟨-, -, hx0, hx252, hb0⟩ := hysteresis_table_bounds cur
    simp only [detectModeWithHysteresis, hcm]
    split_ifs
    · exact ⟨hr0, hr1⟩
    · exact ⟨le_min (by norm_num) (mul_nonneg hr0 hb0), min_le_left 1 _⟩
    · exact ⟨hr0, hr1⟩
    · exact ⟨mul_nonneg hx0 (by norm_num), by linarith⟩
    · exact ⟨mul_nonneg hr0 hp0, mul_unit_le_one hr0 hr1 hp0 hp1⟩
    · exact ⟨mul_nonneg hr0 hp0, mul_unit_le_one hr0 hr1 hp0 hp1⟩
    · exact ⟨hr0, hr1⟩

/-- Witness for `c9_confidence_in_unit_interval` at the uniform soft
distribution `1/6` over a fresh history. -/
theorem c9_confidence_in_unit_interval_witness :
    0 ≤ (detectModeWithHysteresis ⟨fun _ => 1/6, .transitional⟩
      ⟨none, none, 0, .unknown, 0⟩ 0).finalConfidence ∧
    (detectModeWithHysteresis ⟨fun _ => 1/6, .transitional⟩
      ⟨none, none, 0, .unknown, 0⟩ 0).finalConfidence ≤ 1 :=
  (c9_confidence_in_unit_interval ⟨fun _ => 1/6, .transitional⟩
    ⟨none, none, 0, .unknown, 0⟩ 0 (fun _ => by norm_num)).1

/-- Claim C4: for every input and every temperature `T > 0`, the softmax
membership of `compute_soft_mode_membership` is a distribution over exactly
the six modes: every weight lies in [0,1] and the weights sum to 1 (hence
within `10⁻⁶` of 1). -/
theorem c4_soft_membership_normalized (entrainment : ℝ) (breathSteady : Bool)
    (ampNorm volatility T : ℝ) (hT : 0 < T) :
    (∀ m, 0 ≤ softMembership entrainment breathSteady ampNorm volatility T m ∧
      softMembership entrainment breathSteady ampNorm volatility T m ≤ 1) ∧
    |(∑ m : Mode, softMembership entrainment breathSteady ampNorm volatility T m) - 1| ≤
      1e-6 ∧
    Fintype.card Mode = 6 := by
  have hpos : ∀ m : Mode,
      0 < expWeight (softPosition entrainment breathSteady ampNorm volatility) T m :=
    fun m => Real.exp_pos _
  have hsum : 0 < ∑ k : Mode,
      expWeight (softPosition entrainment breathSteady ampNorm volatility) T k :=
    Finset.sum_pos (fun i _ => hpos i) Finset.univ_nonempty
  refine ⟨fun m => ⟨?_, ?_⟩, ?_, ?_⟩
  · exact div_nonneg (hpos m).le hsum.le
  · exact div_le_one_of_le₀
      (Finset.single_le_sum (fun i _ => (hpos i).le) (Finset.mem_univ m)) hsum.le
  · have hone : (∑ m : Mode, softMembership entrainment breathSteady ampNorm volatility T m)
        = 1 := by
      unfold softMembership
      rw [← Finset.sum_div]
      exact div_self hsum.ne'
    rw [hone]
    norm_num
  · rfl

/-- Witness for `c4_soft_membership_normalized` at temperature 1. -/
theorem c4_soft_membership_normalized_witness :
    (0 : ℝ) < 1 ∧
    ((∀ m, 0 ≤ softMembership (1/2) true (1/2) 0 1 m ∧
      softMembership (1/2) true (1/2) 0 1 m ≤ 1) ∧
    |(∑ m : Mode, softMembership (1/2) true (1/2) 0 1 m) - 1| ≤ 1e-6 ∧
    Fintype.card Mode = 6) :=
  ⟨one_pos, c4_soft_membership_normalized (1/2) true (1/2) 0 1 one_pos⟩

/-- The velocity sequence has one element fewer than the position list. -/
lemma stepVelocities_length : ∀ ps : List V3, (stepVelocities ps).length = ps.length - 1
  | [] => rfl
  | [_] => rfl
  | _ :: b :: rest => by
    simp only [stepVelocities, List.length_cons]
    rw [stepVelocities_length (b :: rest)]
    simp

/-- Claim C7: with lag 5, `compute_trajectory_coherence` returns 0 on fewer
than 8 buffered states; otherwise 0.8 when the variance of the velocity
magnitudes (denominator `n`) is below `10⁻¹⁰`, and otherwise
`clamp(0.5·max(0, autocorr) + 0.5·directional, 0, 1)` where the magnitude
autocorrelation divides autocovariance and variance by the identical
denominator `n` and the directional coherence averages `(cos+1)/2` over
pairs of velocities both of magnitude above `10⁻⁶` (0.5 when none). -/
theorem c7_trajectory_coherence_spec (ps : List V3) :
    (ps.length < 8 → computeTrajectoryCoherence ps 5 = 0) ∧
    (8 ≤ ps.length → claimVelMagVariance ps < 1e-10 →
      computeTrajectoryCoherence ps 5 = 0.8) ∧
    (8 ≤ ps.length → ¬claimVelMagVariance ps < 1e-10 →
      computeTrajectoryCoherence ps 5 =
        max 0 (min 1 (0.5 * max 0 (claimMagAutocorr ps 5) +
          0.5 * directionConsistency (stepVelocities ps) 5))) := by
  have hv : ∀ h8 : 8 ≤ ps.length, ¬ (stepVelocities ps).length < 5 + 2 := by
    intro h8
    rw [stepVelocities_length]
    omega
  refine ⟨fun h => ?_, fun h hvar => ?_, fun h hvar => ?_⟩
  · simp only [computeTrajectoryCoherence]
    rw [if_pos (by omega : ps.length < 5 + 3)]
  · simp only [claimVelMagVariance] at hvar
    simp only [computeTrajectoryCoherence]
    rw [if_neg (by omega : ¬ps.length < 5 + 3), if_neg (hv h), if_pos hvar]
  · simp only [claimVelMagVariance] at hvar
    simp only [computeTrajectoryCoherence, claimMagAutocorr]
    rw [if_neg (by omega : ¬ps.length < 5 + 3), if_neg (hv h), if_neg hvar]

/-- Two character lists with different heads differ. -/
lemma cons1_ne {c1 d1 : Char} {l1 l2 : List Char} (h : c1 ≠ d1) : c1 :: l1 ≠ d1 :: l2 := by
  intro he
  injection he with he1 _
  exact h he1

/-- Two character lists with different second elements differ. -/
lemma cons2_ne {c1 c2 d1 d2 : Char} {l1 l2 : List Char} (h : c2 ≠ d2) :
    c1 :: c2 :: l1 ≠ d1 :: d2 :: l2 := by
  intro he
  injection he with _ he2
  injection he2 with he3 _
  exact h he3

/-- String length distributes over append. -/
lemma string_length_append (a b : String) : (a ++ b).length = a.length + b.length :=
  List.length_append a.data b.data

/-- A string shorter than `pre` is not `pre ++ s`. -/
lemma short_ne_append {x pre : String} (h : x.length < pre.length) (s : String) :
    x ≠ pre ++ s := by
  intro he
  have hl := congrArg String.length he
  rw [string_length_append] at hl
  omega

/-- String append is associative. -/
lemma string_append_assoc (a b c : String) : (a ++ b) ++ c = a ++ (b ++ c) :=
  congrArg String.mk (List.append_assoc a.data b.data c.data)

/-- The settled case of `generate_movement_annotation` with the default
thresholds: velocity below 0.03 and dwell at least 5 s yields exactly
`"settled"` — the dwell bound rules out the `" from ..."` suffix, whose
window is 3 s. -/
lemma genAnn_settled (acc : Option ℚ) (p : Option String) {v d : ℚ}
    (hv : v < 0.03) (hd : 5 ≤ d) :
    generateMovementAnn (some v) acc p d VELOCITY_THRESHOLD ACCELERATION_THRESHOLD
      SETTLED_THRESHOLD = "settled" := by
  cases p with
  | none =>
    simp only [generateMovementAnn]
    rw [if_pos]
    constructor
    · exact hv
    · norm_num [SETTLED_THRESHOLD]
      linarith
  | some pm =>
    simp only [generateMovementAnn]
    rw [if_neg (by norm_num [RECENT_TRANSITION_WINDOW]; linarith : ¬d < RECENT_TRANSITION_WINDOW)]
    rw [if_pos]
    constructor
    · exact hv
    · norm_num [SETTLED_THRESHOLD]
      linarith

/-- Appending the empty string is the identity. -/
lemma string_append_empty (s : String) : s ++ "" = s :=
  congrArg String.mk (List.append_nil s.data)

/-- The recent-transition window constant as a plain numeral. -/
lemma RECENT_TRANSITION_WINDOW_eq : RECENT_TRANSITION_WINDOW = 3 := by
  norm_num [RECENT_TRANSITION_WINDOW]

/-- The settled-dwell constant as a plain numeral. -/
lemma SETTLED_THRESHOLD_eq : SETTLED_THRESHOLD = 5 := by
  norm_num [SETTLED_THRESHOLD]

/-- `generate_movement_annotation` with the default thresholds decomposes
into the base word chosen by the velocity/dwell/acceleration tests followed
by the `claimSuffix` (the `" from <previous>"` part, appended iff a
previous mode is known and dwell < 3 s). -/
lemma genAnn_decomposed (acc : Option ℚ) (p : Option String) (v d : ℚ) :
    generateMovementAnn (some v) acc p d VELOCITY_THRESHOLD ACCELERATION_THRESHOLD
      SETTLED_THRESHOLD =
      (if v < VELOCITY_THRESHOLD ∧ SETTLED_THRESHOLD ≤ d then "settled"
       else if v < VELOCITY_THRESHOLD then "still"
       else
         match acc with
         | some a =>
           if ACCELERATION_THRESHOLD < a then "accelerating"
           else if a < -ACCELERATION_THRESHOLD then "decelerating"
           else "moving"
         | none => "moving") ++ claimSuffix p d := by
  cases p with
  | none =>
    simp only [generateMovementAnn, claimSuffix]
    rw [string_append_empty]
  | some pm =>
    simp only [generateMovementAnn, claimSuffix]
    rw [RECENT_TRANSITION_WINDOW_eq]
    by_cases hd3 : d < 3
    · rw [if_pos hd3, if_pos hd3, string_append_assoc]
    · rw [if_neg hd3, if_neg hd3, string_append_empty]

/-- Claim C8: the full input/output table of
`generate_movement_annotation` under the default thresholds, and of
`compose_movement_aware_label`. -/
theorem c8_movement_label_spec (p : Option String) (d : ℚ) :
    (∀ acc : Option ℚ,
      generateMovementAnn none acc p d VELOCITY_THRESHOLD ACCELERATION_THRESHOLD
        SETTLED_THRESHOLD = "insufficient data") ∧
    (∀ (v : ℚ) (acc : Option ℚ), v < 0.03 → 5 ≤ d →
      generateMovementAnn (some v) acc p d VELOCITY_THRESHOLD ACCELERATION_THRESHOLD
        SETTLED_THRESHOLD = "settled") ∧
    (∀ (v : ℚ) (acc : Option ℚ), v < 0.03 → d < 5 →
      generateMovementAnn (some v) acc p d VELOCITY_THRESHOLD ACCELERATION_THRESHOLD
        SETTLED_THRESHOLD = "still" ++ claimSuffix p d) ∧
    (∀ v a : ℚ, ¬v < 0.03 → 0.01 < a →
      generateMovementAnn (some v) (some a) p d VELOCITY_THRESHOLD ACCELERATION_THRESHOLD
        SETTLED_THRESHOLD = "accelerating" ++ claimSuffix p d) ∧
    (∀ v a : ℚ, ¬v < 0.03 → a < -0.01 →
      generateMovementAnn (some v) (some a) p d VELOCITY_THRESHOLD ACCELERATION_THRESHOLD
        SETTLED_THRESHOLD = "decelerating" ++ claimSuffix p d) ∧
    (∀ v a : ℚ, ¬v < 0.03 → ¬0.01 < a → ¬a < -0.01 →
      generateMovementAnn (some v) (some a) p d VELOCITY_THRESHOLD ACCELERATION_THRESHOLD
        SETTLED_THRESHOLD = "moving" ++ claimSuffix p d) ∧
    (∀ v : ℚ, ¬v < 0.03 →
      generateMovementAnn (some v) none p d VELOCITY_THRESHOLD ACCELERATION_THRESHOLD
        SETTLED_THRESHOLD = "moving" ++ claimSuffix p d) ∧
    (∀ mode ann : String,
      (ann = "insufficient data" ∨ ann = "unknown" ∨ ann = "settled" →
        composeMovementAwareLabel mode ann = mode) ∧
      (¬(ann = "insufficient data" ∨ ann = "unknown" ∨ ann = "settled") →
        composeMovementAwareLabel mode ann = mode ++ " (" ++ ann ++ ")")) := by
  refine ⟨fun acc => rfl, fun v acc hv hd => genAnn_settled acc p hv hd,
    fun v acc hv hd => ?_, fun v a hv ha => ?_, fun v a hv ha => ?_,
    fun v a hv ha1 ha2 => ?_, fun v hv => ?_, fun mode ann => ⟨fun h => ?_, fun h => ?_⟩⟩
  · rw [genAnn_decomposed]
    rw [if_neg (fun hc => by
      have h5 : SETTLED_THRESHOLD ≤ d := hc.2
      rw [SETTLED_THRESHOLD_eq] at h5
      linarith), if_pos (show v < VELOCITY_THRESHOLD from hv)]
  · rw [genAnn_decomposed]
    rw [if_neg (fun hc => hv hc.1), if_neg (show ¬v < VELOCITY_THRESHOLD from hv)]
    dsimp only
    rw [if_pos (show ACCELERATION_THRESHOLD < a from ha)]
  · rw [genAnn_decomposed]
    rw [if_neg (fun hc => hv hc.1), if_neg (show ¬v < VELOCITY_THRESHOLD from hv)]
    dsimp only
    rw [if_neg (show ¬ACCELERATION_THRESHOLD < a from fun hlt => by
        have h1 : (0.01 : ℚ) < a := hlt
        linarith), if_pos (show a < -ACCELERATION_THRESHOLD from ha)]
  · rw [genAnn_decomposed]
    rw [if_neg (fun hc => hv hc.1), if_neg (show ¬v < VELOCITY_THRESHOLD from hv)]
    dsimp only
    rw [if_neg (show ¬ACCELERATION_THRESHOLD < a from ha1),
      if_neg (show ¬a < -ACCELERATION_THRESHOLD from ha2)]
  · rw [genAnn_decomposed]
    rw [if_neg (fun hc => hv hc.1), if_neg (show ¬v < VELOCITY_THRESHOLD from hv)]
  · unfold composeMovementAwareLabel
    rw [if_pos h]
  · unfold composeMovementAwareLabel
    rw [if_neg h]

/-- Witness for `c8_movement_label_spec`: a fast, accelerating step with no
previous mode yields `"accelerating"`. -/
theorem c8_movement_label_spec_witness :
    generateMovementAnn (some 1) (some 1) none 1 VELOCITY_THRESHOLD
      ACCELERATION_THRESHOLD SETTLED_THRESHOLD = "accelerating" ++ claimSuffix none 1 :=
  (c8_movement_label_spec none 1).2.2.2.1 1 1 (by norm_num) (by norm_num)

/-- Claim C10: with the default thresholds, an annotation beginning
`"settled from"` is impossible (settled needs dwell ≥ 5 s, the suffix needs
dwell < 3 s), and on every settled step the movement-aware label is the
bare mode name. -/
theorem c10_no_settled_from (vel acc : Option ℚ) (p : Option String) (d : ℚ)
    (mode : String) :
    (∀ s : String,
      generateMovementAnn vel acc p d VELOCITY_THRESHOLD ACCELERATION_THRESHOLD
        SETTLED_THRESHOLD ≠ "settled from" ++ s) ∧
    (∀ v : ℚ, vel = some v → v < 0.03 → 5 ≤ d →
      generateMovementAnn vel acc p d VELOCITY_THRESHOLD ACCELERATION_THRESHOLD
        SETTLED_THRESHOLD = "settled" ∧
      composeMovementAwareLabel mode
        (generateMovementAnn vel acc p d VELOCITY_THRESHOLD ACCELERATION_THRESHOLD
          SETTLED_THRESHOLD) = mode) := by
  constructor
  · intro s
    cases vel with
    | none => exact fun he => cons1_ne (by decide) (congrArg String.data he)
    | some v =>
      rw [genAnn_decomposed]
      cases p with
      | none =>
        simp only [claimSuffix]
        rw [string_append_empty]
        split_ifs
        · exact short_ne_append (by decide) s
        · exact short_ne_append (by decide) s
        · cases acc with
          | none => exact short_ne_append (by decide) s
          | some a =>
            dsimp only
            split_ifs
            · exact fun he => cons1_ne (by decide) (congrArg String.data he)
            · exact fun he => cons1_ne (by decide) (congrArg String.data he)
            · exact short_ne_append (by decide) s
      | some pm =>
        simp only [claimSuffix]
        by_cases hd3 : d < 3
        · rw [if_pos hd3]
          split_ifs with h1 h2
          · exfalso
            have h5 : SETTLED_THRESHOLD ≤ d := h1.2
            rw [SETTLED_THRESHOLD_eq] at h5
            linarith
          · exact fun he => cons2_ne (by decide) (congrArg String.data he)
          · cases acc with
            | none => exact fun he => cons1_ne (by decide) (congrArg String.data he)
            | some a =>
              dsimp only
              split_ifs
              · exact fun he => cons1_ne (by decide) (congrArg String.data he)
              · exact fun he => cons1_ne (by decide) (congrArg String.data he)
              · exact fun he => cons1_ne (by decide) (congrArg String.data he)
        · rw [if_neg hd3, string_append_empty]
          split_ifs
          · exact short_ne_append (by decide) s
          · exact short_ne_append (by decide) s
          · cases acc with
            | none => exact short_ne_append (by decide) s
            | some a =>
              dsimp only
              split_ifs
              · exact fun he => cons1_ne (by decide) (congrArg String.data he)
              · exact fun he => cons1_ne (by decide) (congrArg String.data he)
              · exact short_ne_append (by decide) s
  · intro v hvel hv hd
    subst hvel
    refine ⟨genAnn_settled acc p hv hd, ?_⟩
    rw [genAnn_settled acc p hv hd]
    unfold composeMovementAwareLabel
    rw [if_pos (Or.inr (Or.inr rfl))]

/-- Witness for `c10_no_settled_from`: a still step dwelling 6 s in
`"settling"` is annotated `"settled"` and labelled with the bare mode. -/
theorem c10_no_settled_from_witness :
    generateMovementAnn (some 0.01) none none 6 VELOCITY_THRESHOLD
      ACCELERATION_THRESHOLD SETTLED_THRESHOLD = "settled" ∧
    composeMovementAwareLabel "settling"
      (generateMovementAnn (some 0.01) none none 6 VELOCITY_THRESHOLD
        ACCELERATION_THRESHOLD SETTLED_THRESHOLD) = "settling" :=
  (c10_no_settled_from (some 0.01) none none 6 "settling").2 0.01 rfl
    (by norm_num) (by norm_num)

/-- Witness for `c7_trajectory_coherence_spec`: a three-point buffer is
below the 8-state minimum, so the coherence is the sentinel 0. -/
theorem c7_trajectory_coherence_spec_witness :
    ([((0 : ℝ), (0 : ℝ), (0 : ℝ)), (0, 0, 0), (0, 0, 0)] : List V3).length < 8 ∧
    computeTrajectoryCoherence [((0 : ℝ), (0 : ℝ), (0 : ℝ)), (0, 0, 0), (0, 0, 0)] 5 = 0 :=
  ⟨by decide,
   (c7_trajectory_coherence_spec
     [((0 : ℝ), (0 : ℝ), (0 : ℝ)), (0, 0, 0), (0, 0, 0)]).1 (by decide)⟩

end EBS
